import Mathlib

/-!
Verification of `scripts/init_motor_data.py` (motor fault prediction demo
data initialization script, Python, stdlib only).

The script is embedded shallowly:

* JSON values are the inductive `Json`.  Numbers are kept as a decimal
  mantissa/exponent pair `(mant, exp)` denoting `mant / 10^exp`, written
  exactly as the source spells them (`15.875` is `num 15875 3`, `380` is
  `num 380 0`); every numeric comparison performed by the script or by the
  theorems below is between identically spelled literals, so this
  representation is faithful where it is used.
* The network is an oracle `net : Request → NetResult`: for each concrete
  HTTP request it yields either a successful JSON response with a status
  code (the `urlopen` success path) or an `HTTPError` with a code and a
  raw body string.
* The script's effects are captured by the monad `PM`: a state carrying the
  ordered trace of issued `Request`s, plus an exception channel modelling
  uncaught Python exceptions (`KeyError`, `IndexError`, `TypeError`,
  `AttributeError`).
* Each Python operation that can raise (subscripting, `len`, iteration,
  `.get`, slicing) is modelled by a total Lean function returning `Except`.
-/

/-- JSON values as produced by `json.loads` / consumed by `json.dumps`.
Python dicts are association lists in the order the keys are written;
the script's own payloads have no duplicate keys. -/
inductive Json where
  | null
  | bool (b : Bool)
  | num (mant : Int) (exp : Nat)
  | str (s : String)
  | arr (xs : List Json)
  | obj (kvs : List (String × Json))

mutual

def Json.decEq : (a b : Json) → Decidable (a = b)
  | .null, .null => isTrue rfl
  | .bool a, .bool b =>
    if h : a = b then isTrue (by rw [h]) else isFalse (fun hh => h (by cases hh; rfl))
  | .num m1 e1, .num m2 e2 =>
    if h : m1 = m2 ∧ e1 = e2 then isTrue (by rw [h.1, h.2])
    else isFalse (fun hh => h (by cases hh; exact ⟨rfl, rfl⟩))
  | .str a, .str b =>
    if h : a = b then isTrue (by rw [h]) else isFalse (fun hh => h (by cases hh; rfl))
  | .arr xs, .arr ys =>
    match Json.decEqList xs ys with
    | isTrue h => isTrue (by rw [h])
    | isFalse h => isFalse (fun hh => h (by cases hh; rfl))
  | .obj xs, .obj ys =>
    match Json.decEqObj xs ys with
    | isTrue h => isTrue (by rw [h])
    | isFalse h => isFalse (fun hh => h (by cases hh; rfl))
  | .null, .bool _ => isFalse (by intro h; cases h)
  | .null, .num _ _ => isFalse (by intro h; cases h)
  | .null, .str _ => isFalse (by intro h; cases h)
  | .null, .arr _ => isFalse (by intro h; cases h)
  | .null, .obj _ => isFalse (by intro h; cases h)
  | .bool _, .null => isFalse (by intro h; cases h)
  | .bool _, .num _ _ => isFalse (by intro h; cases h)
  | .bool _, .str _ => isFalse (by intro h; cases h)
  | .bool _, .arr _ => isFalse (by intro h; cases h)
  | .bool _, .obj _ => isFalse (by intro h; cases h)
  | .num _ _, .null => isFalse (by intro h; cases h)
  | .num _ _, .bool _ => isFalse (by intro h; cases h)
  | .num _ _, .str _ => isFalse (by intro h; cases h)
  | .num _ _, .arr _ => isFalse (by intro h; cases h)
  | .num _ _, .obj _ => isFalse (by intro h; cases h)
  | .str _, .null => isFalse (by intro h; cases h)
  | .str _, .bool _ => isFalse (by intro h; cases h)
  | .str _, .num _ _ => isFalse (by intro h; cases h)
  | .str _, .arr _ => isFalse (by intro h; cases h)
  | .str _, .obj _ => isFalse (by intro h; cases h)
  | .arr _, .null => isFalse (by intro h; cases h)
  | .arr _, .bool _ => isFalse (by intro h; cases h)
  | .arr _, .num _ _ => isFalse (by intro h; cases h)
  | .arr _, .str _ => isFalse (by intro h; cases h)
  | .arr _, .obj _ => isFalse (by intro h; cases h)
  | .obj _, .null => isFalse (by intro h; cases h)
  | .obj _, .bool _ => isFalse (by intro h; cases h)
  | .obj _, .num _ _ => isFalse (by intro h; cases h)
  | .obj _, .str _ => isFalse (by intro h; cases h)
  | .obj _, .arr _ => isFalse (by intro h; cases h)

def Json.decEqList : (a b : List Json) → Decidable (a = b)
  | [], [] => isTrue rfl
  | [], _ :: _ => isFalse (by intro h; cases h)
  | _ :: _, [] => isFalse (by intro h; cases h)
  | x :: xs, y :: ys =>
    match Json.decEq x y with
    | isFalse h => isFalse (fun hh => h (by cases hh; rfl))
    | isTrue h1 =>
      match Json.decEqList xs ys with
      | isTrue h2 => isTrue (by rw [h1, h2])
      | isFalse h => isFalse (fun hh => h (by cases hh; rfl))

def Json.decEqObj : (a b : List (String × Json)) → Decidable (a = b)
  | [], [] => isTrue rfl
  | [], _ :: _ => isFalse (by intro h; cases h)
  | _ :: _, [] => isFalse (by intro h; cases h)
  | (k1, v1) :: xs, (k2, v2) :: ys =>
    if hk : k1 = k2 then
      match Json.decEq v1 v2 with
      | isFalse h => isFalse (fun hh => h (by cases hh; rfl))
      | isTrue h1 =>
        match Json.decEqObj xs ys with
        | isTrue h2 => isTrue (by rw [hk, h1, h2])
        | isFalse h => isFalse (fun hh => h (by cases hh; rfl))
    else isFalse (fun hh => hk (by cases hh; rfl))

end

instance : DecidableEq Json := Json.decEq

deriving instance DecidableEq for Except

/-- First-match lookup of a key in a Python dict (the script's dicts have
no duplicate keys, so first-match agrees with Python). -/
def lookupKey : List (String × Json) → String → Option Json
  | [], _ => none
  | (k, v) :: rest, key => if k = key then some v else lookupKey rest key

/-- Python truthiness (`if x:`): `None`, `False`, zero, the empty string,
the empty list and the empty dict are falsy; everything else is truthy. -/
def Json.truthy : Json → Bool
  | .null => false
  | .bool b => b
  | .num m _ => m != 0
  | .str s => s != ""
  | .arr xs => !xs.isEmpty
  | .obj kvs => !kvs.isEmpty

/-- Decimal rendering of a script number for Python `str()`.  Only integer
values (`exp = 0`) ever reach a formatted string in the script's URLs and
headers; the non-integer rendering is a placeholder no theorem relies on. -/
def decRender (mant : Int) (exp : Nat) : String :=
  if exp = 0 then toString mant else toString mant ++ "e-" ++ toString exp

/-- A single ASCII apostrophe, for Python `repr` of strings. -/
def pyQuote (s : String) : String :=
  String.singleton (Char.ofNat 39) ++ s ++ String.singleton (Char.ofNat 39)

mutual

/-- Python `str(x)`, as used by f-string interpolation. -/
def pyStr : Json → String
  | .str s => s
  | .null => "None"
  | .bool b => if b then "True" else "False"
  | .num m e => decRender m e
  | .arr xs => "[" ++ pyStrList xs ++ "]"
  | .obj kvs => "\x7b" ++ pyStrObj kvs ++ "\x7d"

/-- Python `repr(x)` for elements inside containers. -/
def pyRepr : Json → String
  | .str s => pyQuote s
  | .null => "None"
  | .bool b => if b then "True" else "False"
  | .num m e => decRender m e
  | .arr xs => "[" ++ pyStrList xs ++ "]"
  | .obj kvs => "\x7b" ++ pyStrObj kvs ++ "\x7d"

def pyStrList : List Json → String
  | [] => ""
  | [x] => pyRepr x
  | x :: y :: rest => pyRepr x ++ ", " ++ pyStrList (y :: rest)

def pyStrObj : List (String × Json) → String
  | [] => ""
  | [(k, v)] => pyQuote k ++ ": " ++ pyRepr v
  | (k, v) :: p :: rest => pyQuote k ++ ": " ++ pyRepr v ++ ", " ++ pyStrObj (p :: rest)

end

/-- Python subscripting `x[key]` with a string key: dict lookup
(`KeyError` when absent); every other value raises `TypeError`
(list/str indices must be integers, others are not subscriptable). -/
def pySubscript : Json → String → Except String Json
  | .obj kvs, key =>
    match lookupKey kvs key with
    | some v => .ok v
    | none => .error ("KeyError: " ++ key)
  | _, _ => .error "TypeError: value is not subscriptable by a string"

/-- Python subscripting `x[i]` with a (non-negative) integer index:
list indexing and string indexing (`IndexError` out of range); a dict with
string keys raises `KeyError`; other values raise `TypeError`. -/
def pySubscriptInt : Json → Nat → Except String Json
  | .arr xs, i =>
    match xs.get? i with
    | some v => .ok v
    | none => .error "IndexError: list index out of range"
  | .str s, i =>
    match s.data.get? i with
    | some c => .ok (.str (String.singleton c))
    | none => .error "IndexError: string index out of range"
  | .obj _, _ => .error "KeyError: integer key"
  | _, _ => .error "TypeError: value is not subscriptable"

/-- Python `len(x)`: defined for lists, dicts and strings; `TypeError`
otherwise. -/
def pyLen : Json → Except String Nat
  | .arr xs => .ok xs.length
  | .obj kvs => .ok kvs.length
  | .str s => .ok s.length
  | _ => .error "TypeError: object has no len()"

/-- Python iteration `for x in v`: lists yield their elements, strings
their characters, dicts their keys; other values raise `TypeError`. -/
def pyIter : Json → Except String (List Json)
  | .arr xs => .ok xs
  | .str s => .ok (s.data.map fun c => .str (String.singleton c))
  | .obj kvs => .ok (kvs.map fun p => .str p.1)
  | _ => .error "TypeError: object is not iterable"

/-- Python `d.get(key, default)`: only dicts have `.get`; any other value
raises `AttributeError`. -/
def pyGet (v : Json) (key : String) (dflt : Json) : Except String Json :=
  match v with
  | .obj kvs => .ok ((lookupKey kvs key).getD dflt)
  | _ => .error "AttributeError: object has no attribute get"

/-- Python slicing `x[:50]` (used only for the token print): strings and
lists are sliceable, everything else raises `TypeError`. -/
def pySlice50 : Json → Except String Unit
  | .str _ => .ok ()
  | .arr _ => .ok ()
  | _ => .error "TypeError: value is not sliceable"

/-- The `API_BASE` constant of the script. -/
def API_BASE : String := "http://localhost:5000/api"

/-- A concrete HTTP request as assembled by `api_request`:
`body` is the JSON document sent (serialized by `json.dumps`), `none` when
no body is attached; `auth` is the value of the `Authorization` header when
set.  The `Content-Type: application/json` header is always present and
therefore not recorded. -/
structure Request where
  method : String
  url : String
  body : Option Json
  auth : Option String
  deriving DecidableEq

/-- What the network does with one request: either `urlopen` succeeds with
a status and a parsed JSON body, or it raises `HTTPError` with a code and
a raw body string. -/
inductive NetResult where
  | ok (status : Nat) (body : Json)
  | httpError (code : Nat) (body : String)

/-- The status code `api_request` reports for a network outcome. -/
def statusOf : NetResult → Nat
  | .ok s _ => s
  | .httpError c _ => c

/-- `body = json.dumps(data).encode() if data else None`: the body is sent
iff the `data` argument is truthy (so an empty dict or omitted argument
sends no body). -/
def requestBody : Option Json → Option Json
  | none => none
  | some d => if d.truthy then some d else none

/-- The `Authorization` header: set iff the `token` argument is truthy,
with value `f"Bearer {token}"`. -/
def authHeader : Option Json → Option String
  | none => none
  | some t => if t.truthy then some ("Bearer " ++ pyStr t) else none

/-- The request `api_request(method, endpoint, data, token)` issues. -/
def mkRequest (method endpoint : String) (data : Option Json) (token : Option Json) : Request :=
  { method := method
    url := API_BASE ++ endpoint
    body := requestBody data
    auth := authHeader token }

/-- Normalization of a successful response body by `api_request`: a dict
containing an `items` field is replaced by that field's value (paginated
envelope); everything else is returned unchanged. -/
def normalizeResp (j : Json) : Json :=
  match j with
  | .obj kvs =>
    match lookupKey kvs "items" with
    | some v => v
    | none => .obj kvs
  | _ => j

/-- The `(status, value)` pair `api_request` returns for a network outcome:
on success the status and the normalized JSON body, on `HTTPError` the code
and the raw body string. -/
def apiRequestResult : NetResult → Nat × Json
  | .ok status j => (status, normalizeResp j)
  | .httpError code s => (code, .str s)

/-- Result of running a script fragment: either normal completion with a
value, or an uncaught Python exception.  In both cases the full ordered
trace of HTTP requests issued so far is kept. -/
inductive StepResult (α : Type) where
  | ok (val : α) (tr : List Request)
  | exn (msg : String) (tr : List Request)

/-- The trace of a step result. -/
def StepResult.trace : StepResult α → List Request
  | .ok _ tr => tr
  | .exn _ tr => tr

/-- The script monad: request-trace state plus uncaught-exception channel.
An exception aborts the rest of the program (there are no `try` blocks in
`main`), keeping the trace accumulated so far. -/
def PM (α : Type) : Type := List Request → StepResult α

def PM.pure (a : α) : PM α := fun tr => .ok a tr

def PM.bind (m : PM α) (f : α → PM β) : PM β := fun tr =>
  match m tr with
  | .ok v tr1 => f v tr1
  | .exn e tr1 => .exn e tr1

instance : Monad PM where
  pure := PM.pure
  bind := PM.bind

/-- Lift a possibly-raising Python operation into the script monad. -/
def liftE (e : Except String α) : PM α := fun tr =>
  match e with
  | .ok a => .ok a tr
  | .error m => .exn m tr

/-- `api_request(method, endpoint, data, token)`: assembles the request,
records it on the trace, and returns the `(status, value)` pair computed
from the network outcome.  It never raises (the `HTTPError` path is caught
inside the function). -/
def api_request (net : Request → NetResult) (method endpoint : String)
    (data : Option Json) (token : Option Json) : PM (Nat × Json) := fun tr =>
  let req := mkRequest method endpoint data token
  .ok (apiRequestResult (net req)) (tr ++ [req])

/-- The login payload of step 1. -/
def loginPayload : Json :=
  .obj [("username", .str "admin"), ("password", .str "admin123")]

/-- The `motor_models` list of step 2, exactly as written in the script. -/
def motorModels : List Json :=
  [ .obj [ ("name", .str "Standard Induction Motor 15kW"),
           ("description", .str "Three-phase induction motor for industrial drive"),
           ("type", .num 0 0),
           ("ratedPower", .num 150 1),
           ("ratedVoltage", .num 380 0),
           ("ratedCurrent", .num 30 0),
           ("ratedSpeed", .num 1480 0),
           ("ratedFrequency", .num 50 0),
           ("polePairs", .num 2 0),
           ("vfdModel", .str "ABB ACS580"),
           ("bearingModel", .str "SKF 6308"),
           ("bearingRollingElements", .num 8 0),
           ("bearingBallDiameter", .num 15875 3),
           ("bearingPitchDiameter", .num 585 1),
           ("bearingContactAngle", .num 0 0) ],
    .obj [ ("name", .str "VFD Motor 7.5kW"),
           ("description", .str "Variable frequency drive motor"),
           ("type", .num 0 0),
           ("ratedPower", .num 75 1),
           ("ratedVoltage", .num 380 0),
           ("ratedCurrent", .num 15 0),
           ("ratedSpeed", .num 1450 0),
           ("ratedFrequency", .num 50 0),
           ("polePairs", .num 2 0),
           ("vfdModel", .str "Siemens G120"),
           ("bearingModel", .str "SKF 6206") ] ]

/-- The static `parameter_mappings` table of step 5, keyed by `deviceId`. -/
def parameter_mappings : List (String × Json) :=
  [ ("Motor-001", .arr
      [ .obj [("parameter", .num 40 0), ("tagId", .str "Motor1_Temp"),
              ("scaleFactor", .num 10 1), ("offset", .num 0 0),
              ("usedForDiagnosis", .bool true)],
        .obj [("parameter", .num 3 0), ("tagId", .str "Motor1_Current"),
              ("scaleFactor", .num 10 1), ("offset", .num 0 0),
              ("usedForDiagnosis", .bool true)],
        .obj [("parameter", .num 21 0), ("tagId", .str "Motor1_Speed"),
              ("scaleFactor", .num 30 0), ("offset", .num 0 0),
              ("usedForDiagnosis", .bool true)],
        .obj [("parameter", .num 20 0), ("tagId", .str "Torque"),
              ("scaleFactor", .num 10 1), ("offset", .num 0 0),
              ("usedForDiagnosis", .bool true)] ]),
    ("SIM-PLC-001", .arr
      [ .obj [("parameter", .num 40 0), ("tagId", .str "Motor1_Temp"),
              ("scaleFactor", .num 10 1), ("offset", .num 0 0),
              ("usedForDiagnosis", .bool true)],
        .obj [("parameter", .num 3 0), ("tagId", .str "Motor1_Current"),
              ("scaleFactor", .num 10 1), ("offset", .num 0 0),
              ("usedForDiagnosis", .bool true)],
        .obj [("parameter", .num 21 0), ("tagId", .str "Motor1_Speed"),
              ("scaleFactor", .num 30 0), ("offset", .num 0 0),
              ("usedForDiagnosis", .bool true)],
        .obj [("parameter", .num 34 0), ("tagId", .str "Motor1_Running"),
              ("scaleFactor", .num 10 1), ("offset", .num 0 0),
              ("usedForDiagnosis", .bool false)] ]) ]

/-- The `operation_modes` list of step 6. -/
def operation_modes : List Json :=
  [ .obj [("name", .str "Normal Operation"),
          ("description", .str "Motor running at normal speed"),
          ("triggerTagId", .str "Motor1_Speed"),
          ("triggerMinValue", .num 30 0), ("triggerMaxValue", .num 60 0),
          ("minDurationMs", .num 5000 0), ("maxDurationMs", .num 0 0),
          ("priority", .num 1 0)],
    .obj [("name", .str "Low Speed"),
          ("description", .str "Motor running at low speed"),
          ("triggerTagId", .str "Motor1_Speed"),
          ("triggerMinValue", .num 10 0), ("triggerMaxValue", .num 30 0),
          ("minDurationMs", .num 3000 0), ("maxDurationMs", .num 0 0),
          ("priority", .num 2 0)],
    .obj [("name", .str "Idle/Standby"),
          ("description", .str "Motor idle or standby"),
          ("triggerTagId", .str "Motor1_Speed"),
          ("triggerMinValue", .num 0 0), ("triggerMaxValue", .num 10 0),
          ("minDurationMs", .num 2000 0), ("maxDurationMs", .num 0 0),
          ("priority", .num 3 0)] ]

/-- The creation loop shared by steps 2 and 4: POST each payload; a `201`
response is appended to the working list (and its `name` and id fields are
subscripted by the success print); any other status prints the payload's
`name`.  `idKey` is `"modelId"` for models and `"instanceId"` for
instances. -/
def createLoop (net : Request → NetResult) (token : Json) (endpoint idKey : String) :
    List Json → List Json → PM (List Json)
  | [], created => pure created
  | item :: rest, created => do
    let sr ← api_request net "POST" endpoint (some item) (some token)
    if sr.1 == 201 then do
      let _ ← liftE (pySubscript sr.2 "name")
      let _ ← liftE (pySubscript sr.2 idKey)
      createLoop net token endpoint idKey rest (created ++ [sr.2])
    else do
      let _ ← liftE (pySubscript item "name")
      createLoop net token endpoint idKey rest created

/-- Steps 2 and 4 in full: run the creation loop; if the resulting working
list is empty (`if not created_models:`), fall back to `GET` the full
collection, take the response as the working set, and print its `len`. -/
def createCollection (net : Request → NetResult) (token : Json) (endpoint idKey : String)
    (items : List Json) : PM Json := do
  let created ← createLoop net token endpoint idKey items []
  if (Json.arr created).truthy then
    pure (Json.arr created)
  else do
    let sr ← api_request net "GET" endpoint none (some token)
    let _ ← liftE (pyLen sr.2)
    pure sr.2

/-- The coercion of step 3 applied to the devices response: a string is
replaced by `[]`; a dict is replaced by its `data` field when present (by
`[]` when that field is not a list), and kept as the dict itself when it
has no `data` field; every other value is kept unchanged. -/
def devicesCoerce (j : Json) : Json :=
  match j with
  | .str _ => .arr []
  | .obj kvs =>
    match lookupKey kvs "data" with
    | some (.arr xs) => .arr xs
    | some _ => .arr []
    | none => .obj kvs
  | other => other

/-- Step 3 after the coercion: `len(devices)` then the debug print loop
(`d.get` is guarded by `isinstance(d, dict)` and cannot raise). -/
def devicesReport (devices : Json) : PM Unit := do
  let _ ← liftE (pyLen devices)
  let _ ← liftE (pyIter devices)
  pure ()

/-- The first `motor_instances` dict literal of step 4, as a function of
the `modelId` value it carries. -/
def instPayload1 (id0 : Json) : Json :=
  .obj
    [ ("modelId", id0),
      ("deviceId", .str "Motor-001"),
      ("name", .str "Main Drive Motor #1"),
      ("location", .str "Workshop A - Line 1"),
      ("installDate", .str "2024-01-15"),
      ("assetNumber", .str "MTR-2024-001") ]

/-- The second `motor_instances` dict literal of step 4, as a function of
the `modelId` value it carries. -/
def instPayload2 (id1 : Json) : Json :=
  .obj
    [ ("modelId", id1),
      ("deviceId", .str "SIM-PLC-001"),
      ("name", .str "Auxiliary Motor #2"),
      ("location", .str "Workshop A - Line 2"),
      ("installDate", .str "2024-03-20"),
      ("assetNumber", .str "MTR-2024-002") ]

/-- The `motor_instances` list literal of step 4, built from the models
working set, in Python evaluation order: the first payload subscripts
`created_models[0]["modelId"]`; the second evaluates
`len(created_models)`, then either `created_models[1]["modelId"]` or
`created_models[0]["modelId"]` again. -/
def buildMotorInstances (created_models : Json) : Except String (List Json) := do
  let m0 ← pySubscriptInt created_models 0
  let id0 ← pySubscript m0 "modelId"
  let n ← pyLen created_models
  let id1 ←
    if n > 1 then do
      let m1 ← pySubscriptInt created_models 1
      pySubscript m1 "modelId"
    else do
      let m0b ← pySubscriptInt created_models 0
      pySubscript m0b "modelId"
  pure [instPayload1 id0, instPayload2 id1]

/-- `device_id in parameter_mappings` followed by the table access: a list
or dict key is unhashable (`TypeError`); a string key is looked up; other
hashable values are simply not present in the string-keyed table. -/
def pmLookup (device_id : Json) : Except String (Option Json) :=
  match device_id with
  | .arr _ => .error "TypeError: unhashable type"
  | .obj _ => .error "TypeError: unhashable type"
  | .str s => .ok (lookupKey parameter_mappings s)
  | _ => .ok none

/-- Step 5: for each instance of the working set, when its `deviceId` is a
key of the static table, POST the mapping batch; the 200 print subscripts
`resp["created"]` and `inst["name"]`; instances with no table entry are
skipped with no request. -/
def mappingsLoop (net : Request → NetResult) (token : Json) : List Json → PM Unit
  | [] => pure ()
  | inst :: rest => do
    let device_id ← liftE (pySubscript inst "deviceId")
    let mm ← liftE (pmLookup device_id)
    match mm with
    | some mappings => do
      let iid ← liftE (pySubscript inst "instanceId")
      let sr ← api_request net "POST"
        ("/motor-instances/" ++ pyStr iid ++ "/mappings/batch") (some mappings) (some token)
      if sr.1 == 200 then do
        let _ ← liftE (pySubscript sr.2 "created")
        let _ ← liftE (pySubscript inst "name")
        mappingsLoop net token rest
      else
        mappingsLoop net token rest
    | none => mappingsLoop net token rest

/-- The inner loop of step 6: POST every operation mode for one instance;
the 201 print subscripts `mode["name"]` and `inst["name"]`. -/
def modesInner (net : Request → NetResult) (token : Json) (inst : Json) :
    List Json → PM Unit
  | [] => pure ()
  | mode :: rest => do
    let iid ← liftE (pySubscript inst "instanceId")
    let sr ← api_request net "POST"
      ("/motor-instances/" ++ pyStr iid ++ "/modes") (some mode) (some token)
    if sr.1 == 201 then do
      let _ ← liftE (pySubscript mode "name")
      let _ ← liftE (pySubscript inst "name")
      modesInner net token inst rest
    else
      modesInner net token inst rest

/-- Step 6: the mode-creation loop runs over EVERY instance of the working
set; there is no `deviceId` guard. -/
def modesLoop (net : Request → NetResult) (token : Json) : List Json → PM Unit
  | [] => pure ()
  | inst :: rest => do
    modesInner net token inst operation_modes
    modesLoop net token rest

/-- The baseline-learning request body of step 7. -/
def learnBody (startTs endTs : Int) : Json :=
  .obj [("startTs", .num startTs 0), ("endTs", .num endTs 0)]

/-- Step 7: POST the fixed learning window for every instance; the 200
print subscripts `inst["name"]`. -/
def learnLoop (net : Request → NetResult) (token : Json) (startTs endTs : Int) :
    List Json → PM Unit
  | [] => pure ()
  | inst :: rest => do
    let iid ← liftE (pySubscript inst "instanceId")
    let sr ← api_request net "POST"
      ("/motor-instances/" ++ pyStr iid ++ "/learn-all")
      (some (learnBody startTs endTs)) (some token)
    if sr.1 == 200 then do
      let _ ← liftE (pySubscript inst "name")
      learnLoop net token startTs endTs rest
    else
      learnLoop net token startTs endTs rest

/-- The conditional expression of the model summary line (line 252 of the
script): `detail.get('model', \x7b\x7d).get('name', 'N/A') if
detail.get('model') else 'N/A'`.  The `.get` calls raise `AttributeError`
when `detail` (or a truthy non-dict `model` value) is not a dict. -/
def modelLine (detail : Json) : PM Unit := do
  let cond ← liftE (pyGet detail "model" .null)
  if cond.truthy then do
    let mv ← liftE (pyGet detail "model" (.obj []))
    let _ ← liftE (pyGet mv "name" (.str "N/A"))
    pure ()
  else
    pure ()

/-- The per-instance body of step 8: GET the detail and print summary
lines (`inst["name"]` subscript; `detail.get` calls raise
`AttributeError` when `detail` is not a dict). -/
def verifyLoop (net : Request → NetResult) (token : Json) : List Json → PM Unit
  | [] => pure ()
  | inst :: rest => do
    let iid ← liftE (pySubscript inst "instanceId")
    let sr ← api_request net "GET"
      ("/motor-instances/" ++ pyStr iid ++ "/detail") none (some token)
    let detail := sr.2
    let _ ← liftE (pySubscript inst "name")
    modelLine detail
    let maps ← liftE (pyGet detail "mappings" (.arr []))
    let _ ← liftE (pyLen maps)
    let ms ← liftE (pyGet detail "modes" (.arr []))
    let _ ← liftE (pyLen ms)
    let _ ← liftE (pyGet detail "baselineCount" (.num 0 0))
    verifyLoop net token rest

/-- Step 9: POST `/diagnose` for every instance with the empty dict as the
`data` argument; both branches of the status check subscript
`inst["name"]`, and the 200 branch additionally reads
`result.get("healthScore", "N/A")`. -/
def diagLoop (net : Request → NetResult) (token : Json) : List Json → PM Unit
  | [] => pure ()
  | inst :: rest => do
    let iid ← liftE (pySubscript inst "instanceId")
    let sr ← api_request net "POST"
      ("/motor-instances/" ++ pyStr iid ++ "/diagnose")
      (some (.obj [])) (some token)
    if sr.1 == 200 then do
      let _ ← liftE (pySubscript inst "name")
      let _ ← liftE (pyGet sr.2 "healthScore" (.str "N/A"))
      diagLoop net token rest
    else do
      let _ ← liftE (pySubscript inst "name")
      diagLoop net token rest

/-- `token = resp["data"]["token"]` (line 35 of the script): two chained
subscripts on the value `api_request` returned for the login call. -/
def tokenExtract (resp : Json) : Except String Json := do
  let d ← pySubscript resp "data"
  pySubscript d "token"

/-- Steps 2 through 9 of `main()`, everything after the token has been
obtained.  Every `api_request` call in here passes the token. -/
def afterLogin (net : Request → NetResult) (now : Int) (token : Json) : PM Unit := do
  -- 2. Create Motor Models
  let created_models ← createCollection net token "/motor-models" "modelId" motorModels
  -- 3. Get existing devices
  let dsr ← api_request net "GET" "/devices" none (some token)
  let devices := devicesCoerce dsr.2
  devicesReport devices
  -- 4. Create Motor Instances
  let motor_instances ← liftE (buildMotorInstances created_models)
  let created_instances_json ← createCollection net token "/motor-instances" "instanceId" motor_instances
  -- 5. Create Parameter Mappings
  let created_instances ← liftE (pyIter created_instances_json)
  mappingsLoop net token created_instances
  -- 6. Create Operation Modes
  modesLoop net token created_instances
  -- 7. Start Baseline Learning
  let end_ts := now
  let start_ts := end_ts - 60 * 60 * 1000
  learnLoop net token start_ts end_ts created_instances
  -- 8. Wait and verify
  let isr ← api_request net "GET" "/motor-instances" none (some token)
  let _ ← liftE (pyLen isr.2)
  let instances ← liftE (pyIter isr.2)
  verifyLoop net token instances
  -- 9. Test diagnosis
  diagLoop net token instances
  pure ()

/-- The login request of step 1. -/
def loginRequest : Request :=
  mkRequest "POST" "/auth/login" (some loginPayload) none

/-- The whole `main()` of the script (named `mainScript` since Lean
reserves `main`), parameterized by the network oracle and by `now`, the
value of `int(time.time() * 1000)` at step 7.  The `time.sleep(3)` of
step 8 has no observable effect in this model. -/
def mainScript (net : Request → NetResult) (now : Int) : PM Unit := do
  -- 1. Login
  let sr ← api_request net "POST" "/auth/login" (some loginPayload) none
  let token ← liftE (tokenExtract sr.2)
  let _ ← liftE (pySlice50 token)
  afterLogin net now token

/-- Run the script from the empty trace. -/
def mainRun (net : Request → NetResult) (now : Int) : StepResult Unit :=
  mainScript net now []

/-! ## Evaluation lemmas for the script monad -/

theorem PM.run_bind (m : PM α) (f : α → PM β) (tr : List Request) :
    (m >>= f) tr =
      match m tr with
      | .ok v tr1 => f v tr1
      | .exn e tr1 => .exn e tr1 := rfl

theorem PM.run_pure (a : α) (tr : List Request) :
    (Pure.pure a : PM α) tr = .ok a tr := rfl

theorem liftE_run_ok (a : α) (tr : List Request) :
    liftE (Except.ok a) tr = .ok a tr := rfl

theorem liftE_run_error (m : String) (tr : List Request) :
    liftE (Except.error m : Except String α) tr = .exn m tr := rfl

theorem api_request_run (net : Request → NetResult) (method endpoint : String)
    (data token : Option Json) (tr : List Request) :
    api_request net method endpoint data token tr =
      .ok (apiRequestResult (net (mkRequest method endpoint data token)))
        (tr ++ [mkRequest method endpoint data token]) := rfl

/-- The POST request the creation loops issue for one payload. -/
def postReqOf (endpoint : String) (token : Json) (item : Json) : Request :=
  mkRequest "POST" endpoint (some item) (some token)

/-- The fallback GET request of the creation stages. -/
def getReqOf (endpoint : String) (token : Json) : Request :=
  mkRequest "GET" endpoint none (some token)

/-! ## C1: response normalization in api_request -/

/-- C1: for every successful HTTP response, the `(status, value)` pair
returned by `api_request` carries the `items` field's value when the
parsed JSON body is a dict containing an `items` field, and the parsed
body unchanged otherwise. -/
theorem C1_api_request_normalizes (status : Nat) (j : Json) :
    (∀ kvs v, j = Json.obj kvs → lookupKey kvs "items" = some v →
      apiRequestResult (NetResult.ok status j) = (status, v)) ∧
    ((¬ ∃ kvs v, j = Json.obj kvs ∧ lookupKey kvs "items" = some v) →
      apiRequestResult (NetResult.ok status j) = (status, j)) := by
  constructor
  · intro kvs v hj hl
    subst hj
    simp [apiRequestResult, normalizeResp, hl]
  · intro h
    cases j with
    | obj kvs =>
      cases hl : lookupKey kvs "items" with
      | some v => exact absurd ⟨kvs, v, rfl, hl⟩ h
      | none => simp [apiRequestResult, normalizeResp, hl]
    | null => simp [apiRequestResult, normalizeResp]
    | bool b => simp [apiRequestResult, normalizeResp]
    | num m e => simp [apiRequestResult, normalizeResp]
    | str s => simp [apiRequestResult, normalizeResp]
    | arr xs => simp [apiRequestResult, normalizeResp]

theorem C1_api_request_normalizes_witness :
    apiRequestResult (NetResult.ok 200
        (Json.obj [("items", Json.arr [Json.num 7 0]), ("totalCount", Json.num 1 0)]))
      = (200, Json.arr [Json.num 7 0]) ∧
    apiRequestResult (NetResult.ok 200 (Json.str "plain")) = (200, Json.str "plain") := by
  constructor
  · exact (C1_api_request_normalizes 200 _).1
      [("items", Json.arr [Json.num 7 0]), ("totalCount", Json.num 1 0)]
      (Json.arr [Json.num 7 0]) rfl (by decide)
  · refine (C1_api_request_normalizes 200 _).2 ?_
    rintro ⟨kvs, v, hj, -⟩
    exact Json.noConfusion hj

/-! ## C5: login failure aborts the whole pipeline -/

/-- C5: if the token cannot be extracted from the (normalized) login
response — the chained subscripts `resp["data"]["token"]` raise — the
program aborts with that uncaught exception and the only request ever
issued is the login request itself. -/
theorem C5_login_failure_aborts (net : Request → NetResult) (now : Int) (msg : String)
    (h : tokenExtract (apiRequestResult (net loginRequest)).2 = .error msg) :
    mainRun net now = .exn msg [loginRequest] := by
  show (api_request net "POST" "/auth/login" (some loginPayload) none >>= fun sr =>
      liftE (tokenExtract sr.2) >>= fun token =>
      liftE (pySlice50 token) >>= fun _ =>
      afterLogin net now token) [] = .exn msg [loginRequest]
  rw [PM.run_bind, api_request_run]
  rw [show mkRequest "POST" "/auth/login" (some loginPayload) none = loginRequest from rfl]
  simp [PM.run_bind, h, liftE]

theorem C5_login_failure_aborts_witness :
    mainRun (fun _ => NetResult.ok 200 (Json.obj [("ok", Json.bool true)])) 0
      = .exn "KeyError: data" [loginRequest] :=
  C5_login_failure_aborts _ 0 "KeyError: data" rfl

/-! ## New-request predicates -/

theorem StepResult.trace_ok (v : α) (tr : List Request) :
    (StepResult.ok v tr).trace = tr := rfl

theorem StepResult.trace_exn (e : String) (tr : List Request) :
    (StepResult.exn e tr : StepResult α).trace = tr := rfl

/-- Every request a script fragment adds to the trace satisfies `P`. -/
def PM.newReqs (P : Request → Prop) (m : PM α) : Prop :=
  ∀ tr r, r ∈ (m tr).trace → r ∉ tr → P r

theorem PM.newReqs_pure (P : Request → Prop) (a : α) :
    PM.newReqs P (Pure.pure a : PM α) := by
  intro tr r hr hnew
  exact absurd hr hnew

theorem PM.newReqs_liftE (P : Request → Prop) (e : Except String α) :
    PM.newReqs P (liftE e) := by
  intro tr r hr hnew
  cases e <;> exact absurd hr hnew

theorem PM.newReqs_bind {P : Request → Prop} {m : PM α} {f : α → PM β}
    (hm : PM.newReqs P m) (hf : ∀ a, PM.newReqs P (f a)) :
    PM.newReqs P (m >>= f) := by
  intro tr r hr hnew
  rw [PM.run_bind] at hr
  cases hmt : m tr with
  | ok v tr1 =>
    rw [hmt] at hr
    by_cases h1 : r ∈ tr1
    · exact hm tr r (by rw [hmt]; exact h1) hnew
    · exact hf v tr1 r hr h1
  | exn e tr1 =>
    rw [hmt] at hr
    exact hm tr r (by rw [hmt]; exact hr) hnew

theorem PM.newReqs_api_request {P : Request → Prop}
    (net : Request → NetResult) (method endpoint : String) (data token : Option Json)
    (hP : P (mkRequest method endpoint data token)) :
    PM.newReqs P (api_request net method endpoint data token) := by
  intro tr r hr hnew
  rw [api_request_run, StepResult.trace_ok, List.mem_append] at hr
  cases hr with
  | inl h => exact absurd h hnew
  | inr h => rw [List.mem_singleton] at h; rw [h]; exact hP

theorem PM.newReqs_ite {P : Request → Prop} {c : Bool} {m1 m2 : PM α}
    (h1 : PM.newReqs P m1) (h2 : PM.newReqs P m2) :
    PM.newReqs P (if c then m1 else m2) := by
  cases c
  · simpa using h2
  · simpa using h1

/-! ## C6: the baseline-learning window -/

/-- Every request issued by the baseline-learning loop carries the body
`learnBody startTs endTs`. -/
theorem learnLoop_newReqs (net : Request → NetResult) (token : Json)
    (startTs endTs : Int) (insts : List Json) :
    PM.newReqs (fun r => r.body = some (learnBody startTs endTs))
      (learnLoop net token startTs endTs insts) := by
  induction insts with
  | nil =>
    simp only [learnLoop]
    exact PM.newReqs_pure _ _
  | cons inst rest ih =>
    simp only [learnLoop]
    refine PM.newReqs_bind (PM.newReqs_liftE _ _) fun iid => ?_
    refine PM.newReqs_bind (PM.newReqs_api_request _ _ _ _ _ ?_) fun sr => ?_
    · show requestBody (some (learnBody startTs endTs)) = some (learnBody startTs endTs)
      simp [requestBody, Json.truthy, learnBody]
    · refine PM.newReqs_ite ?_ ih
      exact PM.newReqs_bind (PM.newReqs_liftE _ _) fun _ => ih

/-- C6: every request submitted by the baseline-learning stage (step 7,
invoked by `mainScript` with `startTs = now - 60*60*1000` and
`endTs = now` where `now` models `int(time.time() * 1000)`) carries the
JSON window `{startTs: now - 3600000, endTs: now}`, whose bounds satisfy
`endTs - startTs = 3600000` exactly. -/
theorem C6_learn_window (net : Request → NetResult) (token : Json) (now : Int)
    (insts : List Json) (tr : List Request) (r : Request)
    (hr : r ∈ ((learnLoop net token (now - 60 * 60 * 1000) now insts) tr).trace)
    (hnew : r ∉ tr) :
    r.body = some (learnBody (now - 60 * 60 * 1000) now) ∧
    now - (now - 60 * 60 * 1000) = 3600000 := by
  refine ⟨learnLoop_newReqs net token _ now insts tr r hr hnew, by omega⟩

theorem C6_learn_window_witness :
    (mkRequest "POST" "/motor-instances/I1/learn-all"
        (some (learnBody (1700000000000 - 60 * 60 * 1000) 1700000000000))
        (some (Json.str "tok"))).body
      = some (learnBody (1700000000000 - 60 * 60 * 1000) 1700000000000) ∧
    (1700000000000 : Int) - (1700000000000 - 60 * 60 * 1000) = 3600000 :=
  C6_learn_window (fun _ => NetResult.ok 200 (Json.obj [])) (Json.str "tok")
    1700000000000
    [Json.obj [("instanceId", Json.str "I1"), ("name", Json.str "N")]] [] _
    (by decide) (by decide)

/-! ## C8: body serialization follows Python truthiness, not presence -/

/-- C8 counterexample: the diagnosis call supplies the empty dict `{}` as
its `data` argument, but `if data:` is false for an empty dict, so the
issued diagnose request carries NO body at all — refuting the claim that
every supplied body is sent serialized as JSON. -/
theorem C8_counterexample :
    ((diagLoop (fun _ => NetResult.ok 200 (Json.obj [("healthScore", Json.num 95 0)]))
        (Json.str "abc")
        [Json.obj [("instanceId", Json.str "I1"), ("name", Json.str "A")]]) []).trace
      = [{ method := "POST"
           url := API_BASE ++ "/motor-instances/I1/diagnose"
           body := none
           auth := some "Bearer abc" }] := by
  decide

/-- C8 amended: `api_request` attaches the serialized body iff the `data`
argument is truthy; in particular the diagnosis request, whose `data`
argument is the empty dict `{}`, is sent with no body. -/
theorem C8_body_iff_truthy (method endpoint : String) (data : Json) (token : Option Json) :
    (mkRequest method endpoint (some data) token).body
      = (if data.truthy then some data else none) ∧
    (mkRequest method endpoint (some (Json.obj [])) token).body = none := by
  constructor
  · simp [mkRequest, requestBody]
  · simp [mkRequest, requestBody, Json.truthy]

/-! ## C9: the devices working set coercion -/

/-- C9 counterexample: a dict-shaped devices response without a `data`
field is NOT coerced to the empty list (it stays a dict), and an enveloped
response with a non-empty `data` list is replaced by that non-empty list —
refuting the claim that every non-list response is coerced to `[]`. -/
theorem C9_counterexample :
    devicesCoerce (Json.obj [("foo", Json.num 1 0)]) = Json.obj [("foo", Json.num 1 0)] ∧
    Json.obj [("foo", Json.num 1 0)] ≠ Json.arr [] ∧
    devicesCoerce (Json.obj [("data", Json.arr [Json.obj [("deviceId", Json.str "D1")]])])
      = Json.arr [Json.obj [("deviceId", Json.str "D1")]] ∧
    Json.arr [Json.obj [("deviceId", Json.str "D1")]] ≠ Json.arr [] := by
  refine ⟨rfl, by decide, rfl, by decide⟩

/-- C9 amended: a string devices response is coerced to `[]`; a dict
response is replaced by its `data` field when that field is a list, by
`[]` when the field is present but not a list, and is kept as the dict
itself when there is no `data` field; and for every string, dict or list
response the devices stage completes without raising and without issuing
any further request. -/
theorem C9_devices_coercion (s : String) (kvs : List (String × Json))
    (xs : List Json) (tr : List Request) :
    devicesCoerce (Json.str s) = Json.arr [] ∧
    (∀ ys, lookupKey kvs "data" = some (Json.arr ys) →
      devicesCoerce (Json.obj kvs) = Json.arr ys) ∧
    (∀ v, lookupKey kvs "data" = some v → (∀ ys, v ≠ Json.arr ys) →
      devicesCoerce (Json.obj kvs) = Json.arr []) ∧
    (lookupKey kvs "data" = none → devicesCoerce (Json.obj kvs) = Json.obj kvs) ∧
    devicesReport (devicesCoerce (Json.str s)) tr = .ok () tr ∧
    devicesReport (devicesCoerce (Json.obj kvs)) tr = .ok () tr ∧
    devicesReport (devicesCoerce (Json.arr xs)) tr = .ok () tr := by
  refine ⟨rfl, ?_, ?_, ?_, ?_, ?_, ?_⟩
  · intro ys hl
    simp [devicesCoerce, hl]
  · intro v hl hne
    cases v with
    | arr ys => exact absurd rfl (hne ys)
    | null => simp [devicesCoerce, hl]
    | bool b => simp [devicesCoerce, hl]
    | num m e => simp [devicesCoerce, hl]
    | str t => simp [devicesCoerce, hl]
    | obj l => simp [devicesCoerce, hl]
  · intro hl
    simp [devicesCoerce, hl]
  · rfl
  · cases hl : lookupKey kvs "data" with
    | none =>
      simp [devicesCoerce, hl, devicesReport, PM.run_bind, liftE, pyLen, pyIter, PM.run_pure]
    | some v =>
      cases v <;>
        simp [devicesCoerce, hl, devicesReport, PM.run_bind, liftE, pyLen, pyIter, PM.run_pure]
  · rfl

theorem C9_devices_coercion_witness :
    devicesCoerce (Json.str "Internal Server Error") = Json.arr [] ∧
    devicesCoerce (Json.obj [("data", Json.num 1 0)]) = Json.arr [] ∧
    devicesCoerce (Json.obj [("foo", Json.num 1 0)]) = Json.obj [("foo", Json.num 1 0)] := by
  obtain ⟨h1, -, h3, h4, -, -, -⟩ :=
    C9_devices_coercion "Internal Server Error" [("data", Json.num 1 0)] [] []
  obtain ⟨-, -, -, h4b, -, -, -⟩ :=
    C9_devices_coercion "Internal Server Error" [("foo", Json.num 1 0)] [] []
  refine ⟨h1, h3 (Json.num 1 0) (by decide) ?_, h4b (by decide)⟩
  intro ys h
  exact Json.noConfusion h

/-! ## Trace monotonicity -/

/-- A script fragment only appends to the request trace. -/
def PM.traceMono (m : PM α) : Prop :=
  ∀ tr, ∃ ext, (m tr).trace = tr ++ ext

theorem PM.traceMono_pure (a : α) : PM.traceMono (Pure.pure a : PM α) :=
  fun tr => ⟨[], by simp [Pure.pure, PM.pure, StepResult.trace]⟩

theorem PM.traceMono_liftE (e : Except String α) : PM.traceMono (liftE e) := by
  intro tr
  cases e <;> exact ⟨[], by simp [liftE, StepResult.trace]⟩

theorem PM.traceMono_api_request (net : Request → NetResult) (method endpoint : String)
    (data token : Option Json) :
    PM.traceMono (api_request net method endpoint data token) :=
  fun _tr => ⟨[mkRequest method endpoint data token], rfl⟩

theorem PM.traceMono_bind {m : PM α} {f : α → PM β}
    (hm : PM.traceMono m) (hf : ∀ a, PM.traceMono (f a)) :
    PM.traceMono (m >>= f) := by
  intro tr
  rw [PM.run_bind]
  cases hmt : m tr with
  | ok v tr1 =>
    obtain ⟨e2, h2⟩ := hf v tr1
    obtain ⟨e1, h1⟩ := hm tr
    rw [hmt, StepResult.trace_ok] at h1
    exact ⟨e1 ++ e2, by rw [h2, h1, List.append_assoc]⟩
  | exn e tr1 =>
    obtain ⟨e1, h1⟩ := hm tr
    rw [hmt, StepResult.trace_exn] at h1
    exact ⟨e1, by rw [StepResult.trace_exn, h1]⟩

theorem PM.traceMono_ite {c : Bool} {m1 m2 : PM α}
    (h1 : PM.traceMono m1) (h2 : PM.traceMono m2) :
    PM.traceMono (if c then m1 else m2) := by
  cases c
  · simpa using h2
  · simpa using h1

theorem modesInner_traceMono (net : Request → NetResult) (token inst : Json)
    (modes : List Json) :
    PM.traceMono (modesInner net token inst modes) := by
  induction modes with
  | nil =>
    simp only [modesInner]
    exact PM.traceMono_pure _
  | cons mode rest ih =>
    simp only [modesInner]
    refine PM.traceMono_bind (PM.traceMono_liftE _) fun iid => ?_
    refine PM.traceMono_bind (PM.traceMono_api_request _ _ _ _ _) fun sr => ?_
    refine PM.traceMono_ite ?_ ih
    refine PM.traceMono_bind (PM.traceMono_liftE _) fun _ => ?_
    exact PM.traceMono_bind (PM.traceMono_liftE _) fun _ => ih

theorem modesLoop_traceMono (net : Request → NetResult) (token : Json)
    (insts : List Json) :
    PM.traceMono (modesLoop net token insts) := by
  induction insts with
  | nil =>
    simp only [modesLoop]
    exact PM.traceMono_pure _
  | cons inst rest ih =>
    simp only [modesLoop]
    exact PM.traceMono_bind (modesInner_traceMono net token inst operation_modes) fun _ => ih

/-! ## C4: missing mapping-table entry -/

/-- The first request the mode-creation inner loop issues for an instance
is the POST of the first operation mode, regardless of the instance's
`deviceId`. -/
theorem modesInner_first (net : Request → NetResult) (token inst : Json)
    (mode : Json) (ms : List Json) (tr : List Request) (iid : Json)
    (hiid : pySubscript inst "instanceId" = .ok iid) :
    ∃ tl, ((modesInner net token inst (mode :: ms)) tr).trace
      = tr ++ postReqOf ("/motor-instances/" ++ pyStr iid ++ "/modes") token mode :: tl := by
  simp only [modesInner, PM.run_bind, hiid, liftE_run_ok, api_request_run]
  have hmono : PM.traceMono
      (if (apiRequestResult (net (mkRequest "POST"
            ("/motor-instances/" ++ pyStr iid ++ "/modes") (some mode) (some token)))).1 == 201
       then (liftE (pySubscript mode "name") >>= fun _ =>
             liftE (pySubscript inst "name") >>= fun _ =>
             modesInner net token inst ms)
       else modesInner net token inst ms) := by
    refine PM.traceMono_ite ?_ (modesInner_traceMono net token inst ms)
    refine PM.traceMono_bind (PM.traceMono_liftE _) fun _ => ?_
    exact PM.traceMono_bind (PM.traceMono_liftE _) fun _ =>
      modesInner_traceMono net token inst ms
  obtain ⟨ext, hext⟩ := hmono
    (tr ++ [mkRequest "POST" ("/motor-instances/" ++ pyStr iid ++ "/modes")
      (some mode) (some token)])
  refine ⟨ext, ?_⟩
  rw [hext]
  simp [postReqOf]

theorem C4_counterexample :
    ((mappingsLoop (fun _ => NetResult.ok 201 (Json.obj [("ok", Json.bool true)]))
        (Json.str "abc")
        [Json.obj [("deviceId", Json.str "Unknown-999"), ("instanceId", Json.str "I9"),
                   ("name", Json.str "U")]]) []).trace = [] ∧
    ((modesLoop (fun _ => NetResult.ok 201 (Json.obj [("ok", Json.bool true)]))
        (Json.str "abc")
        [Json.obj [("deviceId", Json.str "Unknown-999"), ("instanceId", Json.str "I9"),
                   ("name", Json.str "U")]]) []).trace
      = (operation_modes.map fun mode =>
          { method := "POST"
            url := API_BASE ++ "/motor-instances/I9/modes"
            body := some mode
            auth := some "Bearer abc" }) ∧
    (operation_modes.map fun mode =>
        ({ method := "POST"
           url := API_BASE ++ "/motor-instances/I9/modes"
           body := some mode
           auth := some "Bearer abc" } : Request)) ≠ [] := by
  refine ⟨rfl, ?_, by decide⟩
  decide

/-- C4 amended: for an instance whose `deviceId` is a string absent from
the static `parameter_mappings` table, the mapping stage issues no request
at all for that instance and continues normally (no error); but the
mode-creation stage still POSTs the operation modes for that instance —
its loop has no `deviceId` guard. -/
theorem C4_mapping_skipped_modes_posted
    (net : Request → NetResult) (token inst : Json) (rest : List Json)
    (tr : List Request) (s : String) (iid : Json)
    (hdev : pySubscript inst "deviceId" = .ok (Json.str s))
    (hno : lookupKey parameter_mappings s = none)
    (hiid : pySubscript inst "instanceId" = .ok iid) :
    mappingsLoop net token (inst :: rest) tr = mappingsLoop net token rest tr ∧
    ∃ tl, ((modesLoop net token (inst :: rest)) tr).trace
      = tr ++ postReqOf ("/motor-instances/" ++ pyStr iid ++ "/modes") token
          (operation_modes.headD Json.null) :: tl := by
  constructor
  · simp only [mappingsLoop, PM.run_bind, hdev, liftE_run_ok, pmLookup, hno]
  · have hom : operation_modes = (operation_modes.headD Json.null) :: operation_modes.tail := rfl
    obtain ⟨tl1, h1⟩ := modesInner_first net token inst (operation_modes.headD Json.null)
      operation_modes.tail tr iid hiid
    simp only [modesLoop, PM.run_bind]
    cases hmi : modesInner net token inst operation_modes tr with
    | ok v tr1 =>
      obtain ⟨ext, hext⟩ := modesLoop_traceMono net token rest tr1
      rw [← hom, hmi, StepResult.trace_ok] at h1
      refine ⟨tl1 ++ ext, ?_⟩
      rw [hext, h1]
      simp
    | exn e tr1 =>
      rw [← hom, hmi, StepResult.trace_exn] at h1
      exact ⟨tl1, by rw [StepResult.trace_exn, h1]⟩

theorem C4_mapping_skipped_modes_posted_witness :
    mappingsLoop (fun _ => NetResult.ok 201 (Json.obj []))
        (Json.str "abc")
        [Json.obj [("deviceId", Json.str "Unknown-999"), ("instanceId", Json.str "I9"),
                   ("name", Json.str "U")]] []
      = mappingsLoop (fun _ => NetResult.ok 201 (Json.obj [])) (Json.str "abc") [] [] ∧
    ∃ tl, ((modesLoop (fun _ => NetResult.ok 201 (Json.obj []))
        (Json.str "abc")
        [Json.obj [("deviceId", Json.str "Unknown-999"), ("instanceId", Json.str "I9"),
                   ("name", Json.str "U")]]) []).trace
      = [] ++ postReqOf ("/motor-instances/" ++ pyStr (Json.str "I9") ++ "/modes")
          (Json.str "abc") (operation_modes.headD Json.null) :: tl :=
  C4_mapping_skipped_modes_posted (fun _ => NetResult.ok 201 (Json.obj []))
    (Json.str "abc")
    (Json.obj [("deviceId", Json.str "Unknown-999"), ("instanceId", Json.str "I9"),
               ("name", Json.str "U")])
    [] [] "Unknown-999" (Json.str "I9") (by decide) (by decide) (by decide)


/-! ## C3: instance payloads reference created models -/

/-- With a single model in the working set, both instance payloads are
built from `created_models[0]["modelId"]`. -/
theorem buildMotorInstances_single (m0 : Json) :
    buildMotorInstances (Json.arr [m0]) =
      (pySubscript m0 "modelId").bind fun id0 =>
        (pySubscript m0 "modelId").bind fun id1 =>
          Except.ok [instPayload1 id0, instPayload2 id1] := rfl

/-- With at least two models in the working set, the payloads are built
from `created_models[0]["modelId"]` and `created_models[1]["modelId"]`. -/
theorem buildMotorInstances_multi (m0 m1 : Json) (rest : List Json) :
    buildMotorInstances (Json.arr (m0 :: m1 :: rest)) =
      (pySubscript m0 "modelId").bind fun id0 =>
        (pySubscript m1 "modelId").bind fun id1 =>
          Except.ok [instPayload1 id0, instPayload2 id1] := by
  cases h0 : pySubscript m0 "modelId" with
  | error e =>
    simp [buildMotorInstances, pySubscriptInt, pyLen, Bind.bind, Except.bind, h0]
  | ok id0 =>
    simp only [buildMotorInstances, pySubscriptInt, pyLen, Bind.bind, Except.bind, h0,
      List.get?, List.length, Except.bind]
    rw [if_pos (show rest.length + 1 + 1 > 1 by omega)]
    cases h1 : pySubscript m1 "modelId" with
    | error e => simp [Except.bind, h1]
    | ok id1 => simp [Except.bind, h1, pure, Except.pure]

theorem PM.newReqs_mono {P Q : Request → Prop} (h : ∀ r, P r → Q r) {m : PM α}
    (hm : PM.newReqs P m) : PM.newReqs Q m :=
  fun tr r hr hn => h r (hm tr r hr hn)

/-- Every request the creation loop issues is the POST of one of its input
payloads. -/
theorem createLoop_newReqs (net : Request → NetResult) (token : Json)
    (ep idKey : String) (items : List Json) :
    ∀ acc, PM.newReqs (fun r => ∃ item ∈ items, r = postReqOf ep token item)
      (createLoop net token ep idKey items acc) := by
  induction items with
  | nil =>
    intro acc
    simp only [createLoop]
    exact PM.newReqs_pure _ _
  | cons item rest ih =>
    intro acc
    simp only [createLoop]
    refine PM.newReqs_bind (PM.newReqs_api_request _ _ _ _ _ ⟨item, by simp, rfl⟩)
      fun sr => ?_
    refine PM.newReqs_ite ?_ ?_
    · refine PM.newReqs_bind (PM.newReqs_liftE _ _) fun _ => ?_
      refine PM.newReqs_bind (PM.newReqs_liftE _ _) fun _ => ?_
      refine PM.newReqs_mono ?_ (ih _)
      rintro r ⟨it, hit, hr⟩
      exact ⟨it, by simp [hit], hr⟩
    · refine PM.newReqs_bind (PM.newReqs_liftE _ _) fun _ => ?_
      refine PM.newReqs_mono ?_ (ih _)
      rintro r ⟨it, hit, hr⟩
      exact ⟨it, by simp [hit], hr⟩

/-- C3: when the instance payloads are successfully built from the models
working set `ms`, every payload's `modelId` is the `modelId` of some model
in `ms` (never a locally generated identifier); when `ms` has exactly one
model, both payloads reference that model's `modelId`; and every request
the instance-creation loop issues is the POST of one of those payloads. -/
theorem C3_modelId_from_working_set (ms : List Json) (insts : List Json)
    (h : buildMotorInstances (Json.arr ms) = .ok insts) :
    (∀ inst ∈ insts, ∃ m ∈ ms, pySubscript inst "modelId" = pySubscript m "modelId") ∧
    (∀ m0, ms = [m0] → ∀ inst ∈ insts,
      pySubscript inst "modelId" = pySubscript m0 "modelId") ∧
    (∀ (net : Request → NetResult) (token : Json) (acc : List Json)
       (tr : List Request) (r : Request),
       r ∈ ((createLoop net token "/motor-instances" "instanceId" insts acc) tr).trace →
       r ∉ tr → ∃ inst ∈ insts, r = postReqOf "/motor-instances" token inst) := by
  refine ⟨?_, ?_, fun net token acc tr r hr hnew =>
    createLoop_newReqs net token "/motor-instances" "instanceId" insts acc tr r hr hnew⟩
  · -- every payload's modelId comes from some model of the working set
    match ms with
    | [] =>
      simp [buildMotorInstances, pySubscriptInt, Bind.bind, Except.bind, List.get?] at h
    | [m0] =>
      rw [buildMotorInstances_single] at h
      cases h0 : pySubscript m0 "modelId" with
      | error e => rw [h0] at h; simp [Except.bind] at h
      | ok id0 =>
        rw [h0] at h
        simp only [Except.bind] at h
        cases h
        intro inst hinst
        simp only [List.mem_cons, List.not_mem_nil, or_false] at hinst
        rcases hinst with h1 | h1
        · exact ⟨m0, by simp, by rw [h1, h0]; simp [instPayload1, pySubscript, lookupKey]⟩
        · exact ⟨m0, by simp, by rw [h1, h0]; simp [instPayload2, pySubscript, lookupKey]⟩
    | m0 :: m1 :: ms2 =>
      rw [buildMotorInstances_multi] at h
      cases h0 : pySubscript m0 "modelId" with
      | error e => rw [h0] at h; simp [Except.bind] at h
      | ok id0 =>
        rw [h0] at h
        cases h1 : pySubscript m1 "modelId" with
        | error e => rw [h1] at h; simp [Except.bind] at h
        | ok id1 =>
          rw [h1] at h
          simp only [Except.bind] at h
          cases h
          intro inst hinst
          simp only [List.mem_cons, List.not_mem_nil, or_false] at hinst
          rcases hinst with h2 | h2
          · exact ⟨m0, by simp, by rw [h2, h0]; simp [instPayload1, pySubscript, lookupKey]⟩
          · exact ⟨m1, by simp, by rw [h2, h1]; simp [instPayload2, pySubscript, lookupKey]⟩
  · -- single-model working set: both payloads reference that model
    intro m0 hms
    subst hms
    rw [buildMotorInstances_single] at h
    cases h0 : pySubscript m0 "modelId" with
    | error e => rw [h0] at h; simp [Except.bind] at h
    | ok id0 =>
      rw [h0] at h
      simp only [Except.bind] at h
      cases h
      intro inst hinst
      simp only [List.mem_cons, List.not_mem_nil, or_false] at hinst
      rcases hinst with h1 | h1
      · rw [h1]; simp [instPayload1, pySubscript, lookupKey]
      · rw [h1]; simp [instPayload2, pySubscript, lookupKey]

theorem C3_modelId_from_working_set_witness :
    pySubscript (instPayload1 (Json.str "MID1")) "modelId"
      = pySubscript (Json.obj [("modelId", Json.str "MID1"), ("name", Json.str "M1")]) "modelId" ∧
    pySubscript (instPayload2 (Json.str "MID1")) "modelId"
      = pySubscript (Json.obj [("modelId", Json.str "MID1"), ("name", Json.str "M1")]) "modelId" := by
  have h := C3_modelId_from_working_set
    [Json.obj [("modelId", Json.str "MID1"), ("name", Json.str "M1")]]
    [instPayload1 (Json.str "MID1"), instPayload2 (Json.str "MID1")] (by decide)
  exact ⟨h.2.1 _ rfl _ (by simp), h.2.1 _ rfl _ (by simp)⟩

/-! ## C2: the fallback GET is issued iff no creation returned 201 -/

theorem apiRequestResult_fst (nr : NetResult) :
    (apiRequestResult nr).1 = statusOf nr := by
  cases nr <;> rfl

/-- The POST requests the creation loop issues, in order. -/
def loopPosts (ep : String) (token : Json) (items : List Json) : List Request :=
  items.map (postReqOf ep token)

/-- The responses collected by the creation loop: the normalized bodies of
exactly those payloads whose POST came back with status 201. -/
def created201 (net : Request → NetResult) (ep : String) (token : Json)
    (items : List Json) : List Json :=
  (items.filter fun it => (apiRequestResult (net (postReqOf ep token it))).1 == 201).map
    fun it => (apiRequestResult (net (postReqOf ep token it))).2

theorem created201_cons_pos (net : Request → NetResult) (ep : String) (token : Json)
    (item : Json) (rest : List Json)
    (hc : ((apiRequestResult (net (postReqOf ep token item))).1 == 201) = true) :
    created201 net ep token (item :: rest)
      = (apiRequestResult (net (postReqOf ep token item))).2 :: created201 net ep token rest := by
  simp [created201, List.filter_cons, hc]

theorem created201_cons_neg (net : Request → NetResult) (ep : String) (token : Json)
    (item : Json) (rest : List Json)
    (hc : ((apiRequestResult (net (postReqOf ep token item))).1 == 201) = false) :
    created201 net ep token (item :: rest) = created201 net ep token rest := by
  simp [created201, List.filter_cons, hc]

/-- A completed creation loop returns the accumulated list extended by the
201 responses, and its trace extension is exactly the POST of every
payload, in order. -/
theorem createLoop_run_ok (net : Request → NetResult) (token : Json) (ep idKey : String) :
    ∀ (items acc : List Json) (tr : List Request) (out : List Json) (tr' : List Request),
      createLoop net token ep idKey items acc tr = .ok out tr' →
      out = acc ++ created201 net ep token items ∧ tr' = tr ++ loopPosts ep token items := by
  intro items
  induction items with
  | nil =>
    intro acc tr out tr' h
    cases h
    simp [created201, loopPosts]
  | cons item rest ih =>
    intro acc tr out tr' h
    simp only [createLoop, PM.run_bind, api_request_run] at h
    cases hc : ((apiRequestResult (net (mkRequest "POST" ep (some item) (some token)))).1 == 201) with
    | true =>
      rw [hc] at h
      simp only [if_true] at h
      rw [PM.run_bind] at h
      cases hn : pySubscript (apiRequestResult (net (mkRequest "POST" ep (some item) (some token)))).2 "name" with
      | error e => rw [hn] at h; simp [liftE] at h
      | ok v1 =>
        rw [hn] at h
        simp only [liftE] at h
        rw [PM.run_bind] at h
        cases hk : pySubscript (apiRequestResult (net (mkRequest "POST" ep (some item) (some token)))).2 idKey with
        | error e => rw [hk] at h; simp [liftE] at h
        | ok v2 =>
          rw [hk] at h
          simp only [liftE] at h
          obtain ⟨h1, h2⟩ := ih _ _ _ _ h
          constructor
          · rw [h1, created201_cons_pos net ep token item rest hc]
            simp [postReqOf]
          · rw [h2]
            show _ = tr ++ postReqOf ep token item :: loopPosts ep token rest
            simp [postReqOf]
    | false =>
      rw [hc] at h
      simp only [if_false, Bool.false_eq_true] at h
      rw [PM.run_bind] at h
      cases hn : pySubscript item "name" with
      | error e => rw [hn] at h; simp [liftE] at h
      | ok v1 =>
        rw [hn] at h
        simp only [liftE] at h
        obtain ⟨h1, h2⟩ := ih _ _ _ _ h
        constructor
        · rw [h1, created201_cons_neg net ep token item rest hc]
        · rw [h2]
          show _ = tr ++ postReqOf ep token item :: loopPosts ep token rest
          simp [postReqOf]

/-- A completed creation stage either kept a non-empty working set built
from the 201 responses (no fallback request), or the set was empty and the
stage issued exactly one extra fallback GET of the collection, whose
normalized response becomes the working set. -/
theorem createCollection_run_ok (net : Request → NetResult) (token : Json)
    (ep idKey : String) (items : List Json) (tr : List Request)
    (out : Json) (tr' : List Request)
    (h : createCollection net token ep idKey items tr = .ok out tr') :
    (created201 net ep token items ≠ [] ∧
       out = Json.arr (created201 net ep token items) ∧
       tr' = tr ++ loopPosts ep token items) ∨
    (created201 net ep token items = [] ∧
       out = (apiRequestResult (net (getReqOf ep token))).2 ∧
       tr' = tr ++ loopPosts ep token items ++ [getReqOf ep token]) := by
  simp only [createCollection, PM.run_bind] at h
  cases hcl : createLoop net token ep idKey items [] tr with
  | exn e tr1 => rw [hcl] at h; cases h
  | ok created tr1 =>
    rw [hcl] at h
    simp only [] at h
    obtain ⟨h1, h2⟩ := createLoop_run_ok net token ep idKey items [] tr created tr1 hcl
    rw [List.nil_append] at h1
    subst h1
    subst h2
    cases hcr : created201 net ep token items with
    | nil =>
      rw [hcr] at h
      rw [if_neg (show ¬((Json.arr ([] : List Json)).truthy = true) by
        simp [Json.truthy])] at h
      simp only [PM.run_bind, api_request_run] at h
      cases hl : pyLen (apiRequestResult (net (mkRequest "GET" ep none (some token)))).2 with
      | error e => rw [hl] at h; simp [liftE] at h
      | ok n =>
        rw [hl] at h
        simp only [liftE, PM.run_pure] at h
        cases h
        right
        exact ⟨rfl, rfl, rfl⟩
    | cons c cs =>
      rw [hcr] at h
      rw [if_pos (show (Json.arr (c :: cs)).truthy = true by simp [Json.truthy])] at h
      simp only [PM.run_pure] at h
      cases h
      left
      exact ⟨by simp, rfl, rfl⟩

/-- C2: for a completed creation stage, the fallback GET of the full
collection appears in the trace iff no payload's POST returned 201; and in
the concrete scenario where the first model creation returns 201 and the
second 409, the working set is exactly the first response and the trace is
exactly the two POSTs — no fallback GET. -/
theorem C2_fallback_iff_no_201 (net : Request → NetResult) (token : Json)
    (ep idKey : String) (items : List Json) (tr : List Request)
    (out : Json) (tr' : List Request)
    (hget : getReqOf ep token ∉ tr)
    (h : createCollection net token ep idKey items tr = .ok out tr') :
    ((getReqOf ep token ∈ tr') ↔
      ∀ item ∈ items, (apiRequestResult (net (postReqOf ep token item))).1 ≠ 201) ∧
    createCollection
        (fun r => if r.body = some (motorModels.headD Json.null)
          then NetResult.ok 201 (Json.obj
            [("name", Json.str "Standard Induction Motor 15kW"),
             ("modelId", Json.str "MID1")])
          else NetResult.httpError 409 "duplicate")
        (Json.str "abc") "/motor-models" "modelId" motorModels []
      = .ok (Json.arr [Json.obj
            [("name", Json.str "Standard Induction Motor 15kW"),
             ("modelId", Json.str "MID1")]])
          (loopPosts "/motor-models" (Json.str "abc") motorModels) := by
  refine ⟨?_, rfl⟩
  · rcases createCollection_run_ok net token ep idKey items tr out tr' h with
      ⟨hne, -, htr⟩ | ⟨hempty, -, htr⟩
    · constructor
      · intro hmem
        subst htr
        rcases List.mem_append.1 hmem with hmem1 | hmem2
        · exact absurd hmem1 hget
        · rcases List.mem_map.1 hmem2 with ⟨item, -, heq⟩
          have : "GET" = "POST" := congrArg Request.method heq.symm
          exact absurd this (by decide)
      · intro hall
        exfalso
        apply hne
        unfold created201
        rw [List.filter_eq_nil_iff.2, List.map_nil]
        intro item hitem
        simp only [beq_iff_eq]
        exact hall item hitem
    · constructor
      · intro _
        intro item hitem
        have hfil : (items.filter fun it =>
            (apiRequestResult (net (postReqOf ep token it))).1 == 201) = [] := by
          by_contra hfne
          apply hfne
          have hmap := hempty
          unfold created201 at hmap
          exact List.map_eq_nil_iff.1 hmap
        have := List.filter_eq_nil_iff.1 hfil item hitem
        simpa using this
      · intro _
        subst htr
        simp

theorem C2_fallback_iff_no_201_witness :
    getReqOf "/motor-models" (Json.str "abc")
      ∉ loopPosts "/motor-models" (Json.str "abc") motorModels := by
  intro hmem
  have hiff := (C2_fallback_iff_no_201
      (fun r => if r.body = some (motorModels.headD Json.null)
        then NetResult.ok 201 (Json.obj
          [("name", Json.str "Standard Induction Motor 15kW"),
           ("modelId", Json.str "MID1")])
        else NetResult.httpError 409 "duplicate")
      (Json.str "abc") "/motor-models" "modelId" motorModels []
      (Json.arr [Json.obj
          [("name", Json.str "Standard Induction Motor 15kW"),
           ("modelId", Json.str "MID1")]])
      (loopPosts "/motor-models" (Json.str "abc") motorModels)
      (by simp) rfl).1
  exact hiff.1 hmem (motorModels.headD Json.null) (by decide) (by decide)

/-! ## C7: the Bearer token header -/

/-- Every request a script fragment appends to the trace satisfies `P`,
phrased with the appended extension made explicit. -/
def PM.newOnTrace (P : Request → Prop) (m : PM α) : Prop :=
  ∀ tr, ∃ ext, (m tr).trace = tr ++ ext ∧ ∀ r ∈ ext, P r

theorem PM.newOnTrace_pure (P : Request → Prop) (a : α) :
    PM.newOnTrace P (Pure.pure a : PM α) :=
  fun tr => ⟨[], by simp [Pure.pure, PM.pure, StepResult.trace], by simp⟩

theorem PM.newOnTrace_liftE (P : Request → Prop) (e : Except String α) :
    PM.newOnTrace P (liftE e) := by
  intro tr
  cases e <;> exact ⟨[], by simp [liftE, StepResult.trace], by simp⟩

theorem PM.newOnTrace_api_request {P : Request → Prop}
    (net : Request → NetResult) (method endpoint : String) (data token : Option Json)
    (hP : P (mkRequest method endpoint data token)) :
    PM.newOnTrace P (api_request net method endpoint data token) :=
  fun _tr => ⟨[mkRequest method endpoint data token], rfl, by simpa using hP⟩

theorem PM.newOnTrace_bind {P : Request → Prop} {m : PM α} {f : α → PM β}
    (hm : PM.newOnTrace P m) (hf : ∀ a, PM.newOnTrace P (f a)) :
    PM.newOnTrace P (m >>= f) := by
  intro tr
  rw [PM.run_bind]
  cases hmt : m tr with
  | ok v tr1 =>
    obtain ⟨e1, h1, hp1⟩ := hm tr
    rw [hmt, StepResult.trace_ok] at h1
    obtain ⟨e2, h2, hp2⟩ := hf v tr1
    exact ⟨e1 ++ e2, by rw [h2, h1, List.append_assoc],
      fun r hr => (List.mem_append.1 hr).elim (hp1 r) (hp2 r)⟩
  | exn e tr1 =>
    obtain ⟨e1, h1, hp1⟩ := hm tr
    rw [hmt, StepResult.trace_exn] at h1
    exact ⟨e1, by rw [StepResult.trace_exn, h1], hp1⟩

theorem PM.newOnTrace_ite {P : Request → Prop} {c : Bool} {m1 m2 : PM α}
    (h1 : PM.newOnTrace P m1) (h2 : PM.newOnTrace P m2) :
    PM.newOnTrace P (if c then m1 else m2) := by
  cases c
  · simpa using h2
  · simpa using h1

/-- The tokened-request property the C7 stages preserve. -/
def authOf (token : Json) : Request → Prop :=
  fun r => r.auth = authHeader (some token)

theorem api_request_authOf (net : Request → NetResult) (method ep : String)
    (data : Option Json) (token : Json) :
    PM.newOnTrace (authOf token) (api_request net method ep data (some token)) :=
  PM.newOnTrace_api_request net method ep data (some token) rfl

theorem createLoop_authOf (net : Request → NetResult) (token : Json)
    (ep idKey : String) (items : List Json) :
    ∀ acc, PM.newOnTrace (authOf token) (createLoop net token ep idKey items acc) := by
  induction items with
  | nil =>
    intro acc
    simp only [createLoop]
    exact PM.newOnTrace_pure _ _
  | cons item rest ih =>
    intro acc
    simp only [createLoop]
    refine PM.newOnTrace_bind (api_request_authOf net "POST" ep (some item) token)
      fun sr => ?_
    refine PM.newOnTrace_ite ?_ ?_
    · refine PM.newOnTrace_bind (PM.newOnTrace_liftE _ _) fun _ => ?_
      exact PM.newOnTrace_bind (PM.newOnTrace_liftE _ _) fun _ => ih _
    · exact PM.newOnTrace_bind (PM.newOnTrace_liftE _ _) fun _ => ih _

theorem createCollection_authOf (net : Request → NetResult) (token : Json)
    (ep idKey : String) (items : List Json) :
    PM.newOnTrace (authOf token) (createCollection net token ep idKey items) := by
  simp only [createCollection]
  refine PM.newOnTrace_bind (createLoop_authOf net token ep idKey items []) fun created => ?_
  refine PM.newOnTrace_ite (PM.newOnTrace_pure _ _) ?_
  refine PM.newOnTrace_bind (api_request_authOf net "GET" ep none token) fun sr => ?_
  exact PM.newOnTrace_bind (PM.newOnTrace_liftE _ _) fun _ => PM.newOnTrace_pure _ _

theorem devicesReport_authOf (token : Json) (devices : Json) :
    PM.newOnTrace (authOf token) (devicesReport devices) := by
  simp only [devicesReport]
  refine PM.newOnTrace_bind (PM.newOnTrace_liftE _ _) fun _ => ?_
  exact PM.newOnTrace_bind (PM.newOnTrace_liftE _ _) fun _ => PM.newOnTrace_pure _ _

theorem mappingsLoop_authOf (net : Request → NetResult) (token : Json)
    (insts : List Json) :
    PM.newOnTrace (authOf token) (mappingsLoop net token insts) := by
  induction insts with
  | nil =>
    simp only [mappingsLoop]
    exact PM.newOnTrace_pure _ _
  | cons inst rest ih =>
    simp only [mappingsLoop]
    refine PM.newOnTrace_bind (PM.newOnTrace_liftE _ _) fun device_id => ?_
    refine PM.newOnTrace_bind (PM.newOnTrace_liftE _ _) fun mm => ?_
    cases mm with
    | none => exact ih
    | some mappings =>
      refine PM.newOnTrace_bind (PM.newOnTrace_liftE _ _) fun iid => ?_
      refine PM.newOnTrace_bind (api_request_authOf net "POST" _ _ token) fun sr => ?_
      refine PM.newOnTrace_ite ?_ ih
      refine PM.newOnTrace_bind (PM.newOnTrace_liftE _ _) fun _ => ?_
      exact PM.newOnTrace_bind (PM.newOnTrace_liftE _ _) fun _ => ih

theorem modesInner_authOf (net : Request → NetResult) (token inst : Json)
    (modes : List Json) :
    PM.newOnTrace (authOf token) (modesInner net token inst modes) := by
  induction modes with
  | nil =>
    simp only [modesInner]
    exact PM.newOnTrace_pure _ _
  | cons mode rest ih =>
    simp only [modesInner]
    refine PM.newOnTrace_bind (PM.newOnTrace_liftE _ _) fun iid => ?_
    refine PM.newOnTrace_bind (api_request_authOf net "POST" _ _ token) fun sr => ?_
    refine PM.newOnTrace_ite ?_ ih
    refine PM.newOnTrace_bind (PM.newOnTrace_liftE _ _) fun _ => ?_
    exact PM.newOnTrace_bind (PM.newOnTrace_liftE _ _) fun _ => ih

theorem modesLoop_authOf (net : Request → NetResult) (token : Json)
    (insts : List Json) :
    PM.newOnTrace (authOf token) (modesLoop net token insts) := by
  induction insts with
  | nil =>
    simp only [modesLoop]
    exact PM.newOnTrace_pure _ _
  | cons inst rest ih =>
    simp only [modesLoop]
    exact PM.newOnTrace_bind (modesInner_authOf net token inst operation_modes) fun _ => ih

theorem learnLoop_authOf (net : Request → NetResult) (token : Json)
    (startTs endTs : Int) (insts : List Json) :
    PM.newOnTrace (authOf token) (learnLoop net token startTs endTs insts) := by
  induction insts with
  | nil =>
    simp only [learnLoop]
    exact PM.newOnTrace_pure _ _
  | cons inst rest ih =>
    simp only [learnLoop]
    refine PM.newOnTrace_bind (PM.newOnTrace_liftE _ _) fun iid => ?_
    refine PM.newOnTrace_bind (api_request_authOf net "POST" _ _ token) fun sr => ?_
    refine PM.newOnTrace_ite ?_ ih
    exact PM.newOnTrace_bind (PM.newOnTrace_liftE _ _) fun _ => ih

theorem modelLine_authOf (token : Json) (detail : Json) :
    PM.newOnTrace (authOf token) (modelLine detail) := by
  simp only [modelLine]
  refine PM.newOnTrace_bind (PM.newOnTrace_liftE _ _) fun cond => ?_
  refine PM.newOnTrace_ite ?_ (PM.newOnTrace_pure _ _)
  refine PM.newOnTrace_bind (PM.newOnTrace_liftE _ _) fun _ => ?_
  exact PM.newOnTrace_bind (PM.newOnTrace_liftE _ _) fun _ => PM.newOnTrace_pure _ _

theorem verifyLoop_authOf (net : Request → NetResult) (token : Json)
    (insts : List Json) :
    PM.newOnTrace (authOf token) (verifyLoop net token insts) := by
  induction insts with
  | nil =>
    simp only [verifyLoop]
    exact PM.newOnTrace_pure _ _
  | cons inst rest ih =>
    simp only [verifyLoop]
    refine PM.newOnTrace_bind (PM.newOnTrace_liftE _ _) fun iid => ?_
    refine PM.newOnTrace_bind (api_request_authOf net "GET" _ _ token) fun sr => ?_
    refine PM.newOnTrace_bind (PM.newOnTrace_liftE _ _) fun _ => ?_
    refine PM.newOnTrace_bind (modelLine_authOf token sr.2) fun _ => ?_
    refine PM.newOnTrace_bind (PM.newOnTrace_liftE _ _) fun _ => ?_
    refine PM.newOnTrace_bind (PM.newOnTrace_liftE _ _) fun _ => ?_
    refine PM.newOnTrace_bind (PM.newOnTrace_liftE _ _) fun _ => ?_
    refine PM.newOnTrace_bind (PM.newOnTrace_liftE _ _) fun _ => ?_
    exact PM.newOnTrace_bind (PM.newOnTrace_liftE _ _) fun _ => ih

theorem diagLoop_authOf (net : Request → NetResult) (token : Json)
    (insts : List Json) :
    PM.newOnTrace (authOf token) (diagLoop net token insts) := by
  induction insts with
  | nil =>
    simp only [diagLoop]
    exact PM.newOnTrace_pure _ _
  | cons inst rest ih =>
    simp only [diagLoop]
    refine PM.newOnTrace_bind (PM.newOnTrace_liftE _ _) fun iid => ?_
    refine PM.newOnTrace_bind (api_request_authOf net "POST" _ _ token) fun sr => ?_
    refine PM.newOnTrace_ite ?_ ?_
    · refine PM.newOnTrace_bind (PM.newOnTrace_liftE _ _) fun _ => ?_
      exact PM.newOnTrace_bind (PM.newOnTrace_liftE _ _) fun _ => ih
    · exact PM.newOnTrace_bind (PM.newOnTrace_liftE _ _) fun _ => ih

/-- Every request issued after the token has been obtained carries the
`Authorization` header computed from that token. -/
theorem afterLogin_authOf (net : Request → NetResult) (now : Int) (token : Json) :
    PM.newOnTrace (authOf token) (afterLogin net now token) := by
  simp only [afterLogin]
  refine PM.newOnTrace_bind (createCollection_authOf net token "/motor-models" "modelId"
    motorModels) fun created_models => ?_
  refine PM.newOnTrace_bind (api_request_authOf net "GET" "/devices" none token)
    fun dsr => ?_
  refine PM.newOnTrace_bind (devicesReport_authOf token _) fun _ => ?_
  refine PM.newOnTrace_bind (PM.newOnTrace_liftE _ _) fun motor_instances => ?_
  refine PM.newOnTrace_bind (createCollection_authOf net token "/motor-instances"
    "instanceId" motor_instances) fun cij => ?_
  refine PM.newOnTrace_bind (PM.newOnTrace_liftE _ _) fun created_instances => ?_
  refine PM.newOnTrace_bind (mappingsLoop_authOf net token created_instances) fun _ => ?_
  refine PM.newOnTrace_bind (modesLoop_authOf net token created_instances) fun _ => ?_
  refine PM.newOnTrace_bind (learnLoop_authOf net token _ _ created_instances) fun _ => ?_
  refine PM.newOnTrace_bind (api_request_authOf net "GET" "/motor-instances" none token)
    fun isr => ?_
  refine PM.newOnTrace_bind (PM.newOnTrace_liftE _ _) fun _ => ?_
  refine PM.newOnTrace_bind (PM.newOnTrace_liftE _ _) fun instances => ?_
  refine PM.newOnTrace_bind (verifyLoop_authOf net token instances) fun _ => ?_
  refine PM.newOnTrace_bind (diagLoop_authOf net token instances) fun _ => ?_
  exact PM.newOnTrace_pure _ _

/-- C7: if login returns `{"data": {"token": "abc"}}`, the whole run's
trace is the login request followed only by requests carrying the header
`Authorization: Bearer abc`. -/
theorem C7_bearer_token (net : Request → NetResult) (now : Int)
    (h : (apiRequestResult (net loginRequest)).2
        = Json.obj [("data", Json.obj [("token", Json.str "abc")])]) :
    ∃ rest, (mainRun net now).trace = loginRequest :: rest ∧
      ∀ r ∈ rest, r.auth = some "Bearer abc" := by
  have hrun : mainScript net now [] = afterLogin net now (Json.str "abc") [loginRequest] := by
    show (api_request net "POST" "/auth/login" (some loginPayload) none >>= fun sr =>
        liftE (tokenExtract sr.2) >>= fun token =>
        liftE (pySlice50 token) >>= fun _ =>
        afterLogin net now token) [] = _
    rw [PM.run_bind, api_request_run]
    rw [show mkRequest "POST" "/auth/login" (some loginPayload) none = loginRequest from rfl]
    simp only []
    rw [h]
    rfl
  obtain ⟨ext, hext, hP⟩ := afterLogin_authOf net now (Json.str "abc") [loginRequest]
  refine ⟨ext, ?_, ?_⟩
  · show (mainScript net now []).trace = loginRequest :: ext
    rw [hrun, hext]
    rfl
  · intro r hr
    have h2 := hP r hr
    simp only [authOf] at h2
    exact h2.trans rfl

theorem C7_bearer_token_witness :
    ∃ rest, (mainRun (fun _ => NetResult.ok 200
        (Json.obj [("data", Json.obj [("token", Json.str "abc")])])) 0).trace
      = loginRequest :: rest ∧
      ∀ r ∈ rest, r.auth = some "Bearer abc" :=
  C7_bearer_token (fun _ => NetResult.ok 200
    (Json.obj [("data", Json.obj [("token", Json.str "abc")])])) 0 rfl

/-! ## C10: empty models working set aborts instance building -/

/-- When every POST of the creation loop fails (non-201) and every payload
has a `name` field, the loop completes with an unchanged working list and
a trace extension of exactly the POSTs. -/
theorem createLoop_all_fail (net : Request → NetResult) (token : Json)
    (ep idKey : String) :
    ∀ (items : List Json) (acc : List Json) (tr : List Request),
      (∀ item ∈ items,
        ((apiRequestResult (net (postReqOf ep token item))).1 == 201) = false) →
      (∀ item ∈ items, ∃ v, pySubscript item "name" = .ok v) →
      createLoop net token ep idKey items acc tr
        = .ok acc (tr ++ loopPosts ep token items) := by
  intro items
  induction items with
  | nil =>
    intro acc tr _ _
    simp [createLoop, loopPosts, Pure.pure, PM.pure]
  | cons item rest ih =>
    intro acc tr h2 hname
    simp only [createLoop, PM.run_bind, api_request_run]
    rw [show mkRequest "POST" ep (some item) (some token) = postReqOf ep token item from rfl]
    rw [h2 item (by simp)]
    simp only [Bool.false_eq_true, if_false, PM.run_bind]
    obtain ⟨v, hv⟩ := hname item (by simp)
    rw [hv]
    simp only [liftE]
    rw [ih acc (tr ++ [postReqOf ep token item]) (fun it hit => h2 it (by simp [hit]))
      (fun it hit => hname it (by simp [hit]))]
    simp [loopPosts, postReqOf]

/-- For a string, dict or list devices response, the devices stage after
the coercion completes without raising and without issuing requests. -/
theorem devicesReport_ok (j : Json) (tr : List Request)
    (hj : (∃ s, j = Json.str s) ∨ (∃ kvs, j = Json.obj kvs) ∨ (∃ xs, j = Json.arr xs)) :
    devicesReport (devicesCoerce j) tr = .ok () tr := by
  rcases hj with ⟨s, rfl⟩ | ⟨kvs, rfl⟩ | ⟨xs, rfl⟩
  · rfl
  · cases hl : lookupKey kvs "data" with
    | none =>
      simp [devicesCoerce, hl, devicesReport, PM.run_bind, liftE, pyLen, pyIter, PM.run_pure]
    | some v =>
      cases v <;>
        simp [devicesCoerce, hl, devicesReport, PM.run_bind, liftE, pyLen, pyIter, PM.run_pure]
  · rfl

/-- C10: when the token is obtained but both model creations fail with
non-201 statuses and the fallback GET of `/motor-models` returns an empty
list, the pipeline aborts with an uncaught `IndexError` while building the
first Motor Instance payload (`created_models[0]`): the run ends in an
exception and the trace stops after the devices GET — no motor-instance
request is ever issued. -/
theorem C10_empty_models_aborts (net : Request → NetResult) (now : Int) (tok : String)
    (h1 : tokenExtract (apiRequestResult (net loginRequest)).2 = .ok (Json.str tok))
    (h2 : ∀ item ∈ motorModels,
      ((apiRequestResult (net (postReqOf "/motor-models" (Json.str tok) item))).1 == 201)
        = false)
    (h3 : (apiRequestResult (net (getReqOf "/motor-models" (Json.str tok)))).2 = Json.arr [])
    (h4 : (∃ s, (apiRequestResult (net (getReqOf "/devices" (Json.str tok)))).2 = Json.str s) ∨
          (∃ kvs, (apiRequestResult (net (getReqOf "/devices" (Json.str tok)))).2
            = Json.obj kvs) ∨
          (∃ xs, (apiRequestResult (net (getReqOf "/devices" (Json.str tok)))).2
            = Json.arr xs)) :
    mainRun net now = .exn "IndexError: list index out of range"
      ([loginRequest] ++ loopPosts "/motor-models" (Json.str tok) motorModels
        ++ [getReqOf "/motor-models" (Json.str tok), getReqOf "/devices" (Json.str tok)]) := by
  have hnames : ∀ item ∈ motorModels, ∃ v, pySubscript item "name" = .ok v := by
    intro item hitem
    fin_cases hitem
    · exact ⟨Json.str "Standard Induction Motor 15kW", rfl⟩
    · exact ⟨Json.str "VFD Motor 7.5kW", rfl⟩
  have hcc : createCollection net (Json.str tok) "/motor-models" "modelId" motorModels
      [loginRequest]
      = .ok (Json.arr [])
        (([loginRequest] ++ loopPosts "/motor-models" (Json.str tok) motorModels)
          ++ [getReqOf "/motor-models" (Json.str tok)]) := by
    simp only [createCollection, PM.run_bind]
    rw [createLoop_all_fail net (Json.str tok) "/motor-models" "modelId" motorModels []
      [loginRequest] h2 hnames]
    simp only []
    rw [if_neg (show ¬((Json.arr ([] : List Json)).truthy = true) by simp [Json.truthy])]
    simp only [PM.run_bind, api_request_run]
    rw [show mkRequest "GET" "/motor-models" none (some (Json.str tok))
        = getReqOf "/motor-models" (Json.str tok) from rfl]
    rw [h3]
    rfl
  have hrun : mainScript net now [] = afterLogin net now (Json.str tok) [loginRequest] := by
    show (api_request net "POST" "/auth/login" (some loginPayload) none >>= fun sr =>
        liftE (tokenExtract sr.2) >>= fun token =>
        liftE (pySlice50 token) >>= fun _ =>
        afterLogin net now token) [] = _
    rw [PM.run_bind, api_request_run]
    rw [show mkRequest "POST" "/auth/login" (some loginPayload) none = loginRequest from rfl]
    simp only []
    rw [h1]
    rfl
  show mainScript net now [] = _
  rw [hrun]
  simp only [afterLogin]
  rw [PM.run_bind, hcc]
  simp only []
  rw [PM.run_bind, api_request_run]
  rw [show mkRequest "GET" "/devices" none (some (Json.str tok))
      = getReqOf "/devices" (Json.str tok) from rfl]
  simp only []
  rw [PM.run_bind, devicesReport_ok _ _ h4]
  simp only []
  rw [PM.run_bind]
  rw [show liftE (buildMotorInstances (Json.arr []))
      ((([loginRequest] ++ loopPosts "/motor-models" (Json.str tok) motorModels)
        ++ [getReqOf "/motor-models" (Json.str tok)]) ++ [getReqOf "/devices" (Json.str tok)])
      = StepResult.exn "IndexError: list index out of range"
        ((([loginRequest] ++ loopPosts "/motor-models" (Json.str tok) motorModels)
          ++ [getReqOf "/motor-models" (Json.str tok)]) ++ [getReqOf "/devices" (Json.str tok)])
      from rfl]
  simp [List.append_assoc]

theorem C10_empty_models_aborts_witness :
    mainRun (fun r =>
      if r.url = API_BASE ++ "/auth/login"
        then NetResult.ok 200 (Json.obj [("data", Json.obj [("token", Json.str "t")])])
      else if r.method = "POST" then NetResult.httpError 409 "duplicate"
      else NetResult.ok 200 (Json.arr [])) 0
      = .exn "IndexError: list index out of range"
        ([loginRequest] ++ loopPosts "/motor-models" (Json.str "t") motorModels
          ++ [getReqOf "/motor-models" (Json.str "t"), getReqOf "/devices" (Json.str "t")]) :=
  C10_empty_models_aborts _ 0 "t" rfl (by decide) rfl (Or.inr (Or.inr ⟨[], rfl⟩))
